import Mathlib

/-!
Verification development for the spin outbound-networking policy layer and
variable-expression resolution engine.

Part 1 embeds the outbound socket-address check closure installed by
`OutboundNetworkingFactor::prepare` (crates/factor-outbound-networking/src/lib.rs).
The closure's two collaborators, `OutboundAllowedHosts::check_url` and
`BlockedNetworks::is_blocked`, are passed in as function parameters, matching
how the closure captures them.
-/

/-- The `SocketAddrUse` enum from spin-factor-wasi: how a socket address is
about to be used. -/
inductive SocketAddrUse
  | tcpBind
  | tcpConnect
  | udpBind
  | udpConnect
  | udpOutgoingDatagram
deriving DecidableEq, Repr

/-- Rust's `Result::unwrap_or`: the ok value, or the default on error. -/
def exceptUnwrapOr {ε α : Type} (r : Except ε α) (d : α) : α :=
  match r with
  | .ok a => a
  | .error _ => d

/-- The scheme string computed by the closure for a non-bind use
(`"tcp"` for TcpConnect, `"udp"` for the Udp uses). -/
def connect_scheme : SocketAddrUse → String
  | .tcpConnect => "tcp"
  | _ => "udp"

/-- Embedding of the `outbound_socket_addr_check` closure installed by
`OutboundNetworkingFactor::prepare`:

  match addr_use: TcpBind returns false; TcpConnect uses scheme "tcp";
  UdpBind, UdpConnect, UdpOutgoingDatagram use scheme "udp"; then
  `check_url(addr, scheme).unwrap_or(false)` must be true and
  `is_blocked(addr)` must be false, else false.

`check_url` models `OutboundAllowedHosts::check_url` (a `Result<bool>`),
`is_blocked` models `BlockedNetworks::is_blocked`, and `addr` is the socket
address rendered as a string. -/
def outbound_socket_addr_check {ε : Type}
    (check_url : String → String → Except ε Bool)
    (is_blocked : String → Bool)
    (addr : String) (addr_use : SocketAddrUse) : Bool :=
  match addr_use with
  | .tcpBind => false
  | _ =>
    let scheme := connect_scheme addr_use
    if !(exceptUnwrapOr (check_url addr scheme) false) then false
    else if is_blocked addr then false
    else true

/-- C1 counterexample: with an allow-everything `check_url` and an empty
block-list, a UDP bind is permitted (returns true), so binding attempts are
not always denied. -/
theorem C1_udp_bind_allowed_counterexample :
    outbound_socket_addr_check
      (fun _ _ => (Except.ok true : Except Unit Bool))
      (fun _ => false)
      "127.0.0.1:5353" SocketAddrUse.udpBind = true := rfl

/-- C1 (amended): for every socket address, TCP bind use is denied outright
(returns false) regardless of `check_url` and `is_blocked`, while UDP bind is
treated exactly like a UDP connect, i.e. it is subject to the allow-list and
blocked-networks checks. -/
theorem C1_tcp_bind_always_denied {ε : Type}
    (check_url : String → String → Except ε Bool)
    (is_blocked : String → Bool) (addr : String) :
    outbound_socket_addr_check check_url is_blocked addr SocketAddrUse.tcpBind
        = false
      ∧ outbound_socket_addr_check check_url is_blocked addr SocketAddrUse.udpBind
        = outbound_socket_addr_check check_url is_blocked addr SocketAddrUse.udpConnect :=
  ⟨rfl, rfl⟩

/-- The body of the check after scheme selection: it evaluates to true exactly
when the allow-list verdict is Ok(true) and the block-list verdict is false. -/
theorem socket_check_body_iff {ε : Type} (r : Except ε Bool) (b : Bool) :
    (if !(exceptUnwrapOr r false) then false else if b then false else true) = true ↔
      (r = Except.ok true ∧ b = false) := by
  cases r with
  | error e => cases b <;> simp [exceptUnwrapOr]
  | ok v => cases v <;> cases b <;> simp [exceptUnwrapOr]

/-- C3: for every non-bind use, the socket check returns true if and only if
`check_url` returned Ok(true) for the address and the use's scheme and
`is_blocked` returned false: both checks must pass. -/
theorem C3_allow_and_block_both_consulted {ε : Type}
    (check_url : String → String → Except ε Bool)
    (is_blocked : String → Bool) (addr : String) (u : SocketAddrUse)
    (h : u ≠ SocketAddrUse.tcpBind ∧ u ≠ SocketAddrUse.udpBind) :
    outbound_socket_addr_check check_url is_blocked addr u = true ↔
      (check_url addr (connect_scheme u) = Except.ok true ∧ is_blocked addr = false) := by
  obtain ⟨h1, h2⟩ := h
  cases u with
  | tcpBind => exact absurd rfl h1
  | udpBind => exact absurd rfl h2
  | tcpConnect =>
    exact socket_check_body_iff (check_url addr "tcp") (is_blocked addr)
  | udpConnect =>
    exact socket_check_body_iff (check_url addr "udp") (is_blocked addr)
  | udpOutgoingDatagram =>
    exact socket_check_body_iff (check_url addr "udp") (is_blocked addr)

/-- C3 witness: concrete evaluation at a TCP connect whose allow-list check
passes and whose address is not blocked. -/
theorem C3_allow_and_block_both_consulted_witness :
    (SocketAddrUse.tcpConnect ≠ SocketAddrUse.tcpBind
        ∧ SocketAddrUse.tcpConnect ≠ SocketAddrUse.udpBind)
      ∧ (outbound_socket_addr_check
            (fun _ _ => (Except.ok true : Except Unit Bool))
            (fun _ => false) "93.184.216.34:443" SocketAddrUse.tcpConnect = true ↔
          ((fun (_ : String) (_ : String) => (Except.ok true : Except Unit Bool))
              "93.184.216.34:443" (connect_scheme SocketAddrUse.tcpConnect) = Except.ok true
            ∧ (fun (_ : String) => false) "93.184.216.34:443" = false)) :=
  ⟨⟨by decide, by decide⟩,
    C3_allow_and_block_both_consulted
      (fun _ _ => (Except.ok true : Except Unit Bool))
      (fun _ => false) "93.184.216.34:443" SocketAddrUse.tcpConnect
      ⟨by decide, by decide⟩⟩

/-- C4: whenever `check_url` resolves to an error, the socket check returns
false for every use kind: an internal error denies the connection and no error
propagates to the host. -/
theorem C4_check_url_error_denies {ε : Type}
    (check_url : String → String → Except ε Bool)
    (is_blocked : String → Bool) (addr : String) (u : SocketAddrUse) (e : ε)
    (herr : ∀ s, check_url addr s = Except.error e) :
    outbound_socket_addr_check check_url is_blocked addr u = false := by
  cases u <;> simp [outbound_socket_addr_check, connect_scheme, herr, exceptUnwrapOr]

/-- C4 witness: concrete evaluation with a `check_url` that always fails. -/
theorem C4_check_url_error_denies_witness :
    (∀ s, (fun (_ : String) (_ : String) => (Except.error () : Except Unit Bool))
        "10.0.0.1:80" s = Except.error ())
      ∧ outbound_socket_addr_check
          (fun _ _ => (Except.error () : Except Unit Bool))
          (fun _ => false) "10.0.0.1:80" SocketAddrUse.tcpConnect = false :=
  ⟨fun _ => rfl,
    C4_check_url_error_denies
      (fun _ _ => (Except.error () : Except Unit Bool))
      (fun _ => false) "10.0.0.1:80" SocketAddrUse.tcpConnect () (fun _ => rfl)⟩

/-!
Part 2 covers the variable-expression resolution engine (spin-expressions).
`ProviderVariableKind` is embedded from crates/expressions/src/provider.rs; the
mock providers are embedded from crates/expressions/tests/validation_test.rs
and crates/factor-variables/tests/factor_test.rs. The resolver operations
themselves live in spin-expressions/src/lib.rs, which is not part of the
sources here, so they are modelled from the spec (sections 4.1 and 3).
-/

/-- The dynamism of a Provider (crates/expressions/src/provider.rs):
Static data is fixed at process start, Dynamic data may appear at runtime. -/
inductive ProviderVariableKind
  | Static
  | Dynamic
deriving DecidableEq, Repr

/-- The Provider trait (crates/expressions/src/provider.rs): an optional string
value per key, which may fail with a backend error, plus a kind. Keys are
modelled as strings. -/
structure Provider where
  kind : ProviderVariableKind
  get : String → Except String (Option String)

/-- A declared variable (spin-locked-app `Variable`, as used by the tests):
optional description, optional default, secret marker. -/
structure Variable where
  description : Option String
  default : Option String
  secret : Bool

/-- Modelled from the spec: `ProviderResolver` owns the declared-variable table
and the ordered provider list (spin-expressions/src/lib.rs is not under the
sources here). -/
structure ProviderResolver where
  declared_variables : List (String × Variable)
  providers : List Provider

/-- The resolution error taxonomy from the spec (section 7), plus the
template-syntax failure case. -/
inductive ResolveError
  | undeclared (key : String)
  | undefined (key : String)
  | provider_failed (msg : String)
  | invalid_template (msg : String)
deriving DecidableEq, Repr

/-- Modelled from the spec: the provider-chain part of `ProviderResolver::resolve`
— providers queried in registration order, first Ok(Some) short-circuits, a
provider error immediately fails the whole resolution. -/
def provider_chain_get : List Provider → String → Except String (Option String)
  | [], _ => Except.ok none
  | p :: ps, key =>
    match p.get key with
    | Except.error e => Except.error e
    | Except.ok (some v) => Except.ok (some v)
    | Except.ok none => provider_chain_get ps key

/-- Modelled from the spec: `ProviderResolver::resolve` — undeclared keys fail,
the provider chain is consulted first, then the declaration default, else
Undefined. -/
def ProviderResolver.resolve (r : ProviderResolver) (key : String) :
    Except ResolveError String :=
  match r.declared_variables.lookup key with
  | none => Except.error (ResolveError.undeclared key)
  | some var =>
    match provider_chain_get r.providers key with
    | Except.error e => Except.error (ResolveError.provider_failed e)
    | Except.ok (some v) => Except.ok v
    | Except.ok none =>
      match var.default with
      | some d => Except.ok d
      | none => Except.error (ResolveError.undefined key)

/-- Modelled from the spec: whether any registered provider is Dynamic
(short-circuiting scan in registration order). -/
def has_dynamic_provider : List Provider → Bool
  | [] => false
  | p :: ps =>
    match p.kind with
    | ProviderVariableKind.Dynamic => true
    | ProviderVariableKind.Static => has_dynamic_provider ps

/-- Modelled from the spec: whether some Static provider answers Some for the
key during validation; only Static providers are queried. -/
def static_provider_answers : List Provider → String → Bool
  | [], _ => false
  | p :: ps, key =>
    match p.kind with
    | ProviderVariableKind.Static =>
      match p.get key with
      | Except.ok (some _) => true
      | _ => static_provider_answers ps key
    | ProviderVariableKind.Dynamic => static_provider_answers ps key

/-- Modelled from the spec: resolvability steps 1-3 of
`validate_variable_existence` — a default, or any Dynamic provider, or a
Static provider answering Some. -/
def variable_resolvable (ps : List Provider) (key : String) (var : Variable) : Bool :=
  var.default.isSome || has_dynamic_provider ps || static_provider_answers ps key

/-- The validation error: the aggregated set of unresolvable variable keys. -/
inductive ValidationError
  | missing (keys : List String)
deriving DecidableEq, Repr

/-- Modelled from the spec: `ProviderResolver::validate_variable_existence` —
collects every unresolvable declared variable and fails with the whole list, or
succeeds when there are none. -/
def ProviderResolver.validate_variable_existence (r : ProviderResolver) :
    Except ValidationError Unit :=
  match (r.declared_variables.filter fun kv =>
      !(variable_resolvable r.providers kv.1 kv.2)).map Prod.fst with
  | [] => Except.ok ()
  | ks => Except.error (ValidationError.missing ks)

/-- Replace every Dynamic provider's get function, keeping kinds and Static
providers unchanged; validation never consulting Dynamic answers is stated as
invariance under this replacement. -/
def replace_dynamic_gets (r : ProviderResolver)
    (f : String → Except String (Option String)) : ProviderResolver :=
  { r with
    providers := r.providers.map fun p =>
      match p.kind with
      | ProviderVariableKind.Dynamic => { p with get := f }
      | ProviderVariableKind.Static => p }

/-- StaticMockProvider from the validation tests: key foo answers bar. -/
def StaticMockProvider : Provider :=
  { kind := ProviderVariableKind.Static,
    get := fun key =>
      if key = "foo" then Except.ok (some "bar") else Except.ok none }

/-- ExtraStaticMockProvider from the validation tests: key bar answers hey. -/
def ExtraStaticMockProvider : Provider :=
  { kind := ProviderVariableKind.Static,
    get := fun key =>
      if key = "bar" then Except.ok (some "hey") else Except.ok none }

/-- DynamicMockProvider from the validation tests: always None, kind Dynamic. -/
def DynamicMockProvider : Provider :=
  { kind := ProviderVariableKind.Dynamic, get := fun _ => Except.ok none }

theorem has_dynamic_of_mem (ps : List Provider) (p : Provider)
    (hp : p ∈ ps) (hk : p.kind = ProviderVariableKind.Dynamic) :
    has_dynamic_provider ps = true := by
  induction ps with
  | nil => cases hp
  | cons q qs ih =>
    rcases List.mem_cons.mp hp with h | h
    · subst h
      simp [has_dynamic_provider, hk]
    · cases hq : q.kind <;> simp [has_dynamic_provider, hq]
      exact ih h

theorem validate_ok_of_dynamic (r : ProviderResolver)
    (h : has_dynamic_provider r.providers = true) :
    r.validate_variable_existence = Except.ok () := by
  unfold ProviderResolver.validate_variable_existence
  have hfil : (r.declared_variables.filter fun kv =>
      !(variable_resolvable r.providers kv.1 kv.2)) = [] := by
    apply List.filter_eq_nil_iff.mpr
    intro kv _
    simp [variable_resolvable, h]
  rw [hfil]
  rfl

theorem replace_dynamic_preserves_dynamic (ps : List Provider)
    (f : String → Except String (Option String)) :
    has_dynamic_provider (ps.map fun p =>
      match p.kind with
      | ProviderVariableKind.Dynamic => { p with get := f }
      | ProviderVariableKind.Static => p) = has_dynamic_provider ps := by
  induction ps with
  | nil => rfl
  | cons q qs ih =>
    cases hq : q.kind <;> simp [has_dynamic_provider, hq, ih]

/-- C5: when at least one registered provider is Dynamic, validation succeeds,
and it still succeeds when every Dynamic provider's get is replaced by an
arbitrary function — validation is independent of Dynamic provider answers. -/
theorem C5_dynamic_provider_validation (r : ProviderResolver)
    (hdyn : ∃ p ∈ r.providers, p.kind = ProviderVariableKind.Dynamic) :
    r.validate_variable_existence = Except.ok ()
      ∧ ∀ f, (replace_dynamic_gets r f).validate_variable_existence = Except.ok () := by
  obtain ⟨p, hp, hk⟩ := hdyn
  have hdp : has_dynamic_provider r.providers = true := has_dynamic_of_mem _ p hp hk
  refine ⟨validate_ok_of_dynamic r hdp, fun f => validate_ok_of_dynamic _ ?_⟩
  show has_dynamic_provider (r.providers.map _) = true
  rw [replace_dynamic_preserves_dynamic]
  exact hdp

/-- Resolver of the test with a single Dynamic provider and declared variable
baz without a default. -/
def dynamic_only_resolver : ProviderResolver :=
  { declared_variables := [("baz", { description := none, default := none, secret := false })],
    providers := [DynamicMockProvider] }

/-- C5 witness: the Dynamic-provider resolver of the validation test
validates successfully. -/
theorem C5_dynamic_provider_validation_witness :
    dynamic_only_resolver.validate_variable_existence = Except.ok ()
      ∧ ∀ f, (replace_dynamic_gets dynamic_only_resolver f).validate_variable_existence
          = Except.ok () :=
  C5_dynamic_provider_validation dynamic_only_resolver
    ⟨DynamicMockProvider, List.mem_singleton.mpr rfl, rfl⟩

theorem provider_chain_get_skip (ps : List Provider) (key : String)
    (hnone : ∀ q ∈ ps, q.get key = Except.ok none) (rest : List Provider) :
    provider_chain_get (ps ++ rest) key = provider_chain_get rest key := by
  induction ps with
  | nil => rfl
  | cons q qs ih =>
    have hq : q.get key = Except.ok none := hnone q (List.mem_cons_self q qs)
    have ih2 := ih fun x hx => hnone x (List.mem_cons_of_mem q hx)
    simp [provider_chain_get, hq, ih2]

/-- C6: `resolve` queries providers in registration order and the first
Ok(Some) short-circuits: if every provider before p answers Ok(None) and p
answers Ok(Some v), resolution of a declared key returns v, regardless of the
providers after p and of the declaration's default. -/
theorem C6_resolve_registration_order (r : ProviderResolver) (key : String)
    (var : Variable) (ps qs : List Provider) (p : Provider) (v : String)
    (hdecl : r.declared_variables.lookup key = some var)
    (hprov : r.providers = ps ++ p :: qs)
    (hnone : ∀ q ∈ ps, q.get key = Except.ok none)
    (hsome : p.get key = Except.ok (some v)) :
    r.resolve key = Except.ok v := by
  unfold ProviderResolver.resolve
  rw [hdecl, hprov, provider_chain_get_skip ps key hnone]
  simp [provider_chain_get, hsome]

/-- Resolver of the two-static-providers test: declared key bar with no
default, providers StaticMockProvider then ExtraStaticMockProvider. -/
def two_static_resolver : ProviderResolver :=
  { declared_variables := [("bar", { description := none, default := none, secret := false })],
    providers := [StaticMockProvider, ExtraStaticMockProvider] }

/-- C6 witness: only the second provider has key bar, so resolve returns the
second provider's value hey. -/
theorem C6_resolve_registration_order_witness :
    two_static_resolver.resolve "bar" = Except.ok "hey" :=
  C6_resolve_registration_order two_static_resolver "bar"
    { description := none, default := none, secret := false }
    [StaticMockProvider] [] ExtraStaticMockProvider "hey"
    rfl rfl
    (by
      intro q hq
      rw [List.mem_singleton] at hq
      subst hq
      rfl)
    rfl

theorem no_dynamic_of_all_static (ps : List Provider)
    (h : ∀ p ∈ ps, p.kind = ProviderVariableKind.Static) :
    has_dynamic_provider ps = false := by
  induction ps with
  | nil => rfl
  | cons q qs ih =>
    have hq := h q (List.mem_cons_self q qs)
    simp [has_dynamic_provider, hq]
    exact ih fun x hx => h x (List.mem_cons_of_mem q hx)

theorem static_answers_false_of_no_answer (ps : List Provider) (key : String)
    (h : ∀ p ∈ ps, ∀ w, p.get key ≠ Except.ok (some w)) :
    static_provider_answers ps key = false := by
  induction ps with
  | nil => rfl
  | cons q qs ih =>
    have ih2 := ih fun x hx => h x (List.mem_cons_of_mem q hx)
    have hq := h q (List.mem_cons_self q qs)
    cases hk : q.kind with
    | Dynamic => simp [static_provider_answers, hk, ih2]
    | Static =>
      cases hg : q.get key with
      | error e => simp [static_provider_answers, hk, hg, ih2]
      | ok o =>
        cases o with
        | none => simp [static_provider_answers, hk, hg, ih2]
        | some w => exact absurd hg (hq w)

theorem unresolvable_mem_missing (r : ProviderResolver) (key : String) (var : Variable)
    (hmem : (key, var) ∈ r.declared_variables)
    (hnodef : var.default = none)
    (hstatic : ∀ p ∈ r.providers, p.kind = ProviderVariableKind.Static)
    (hnoanswer : ∀ p ∈ r.providers, ∀ w, p.get key ≠ Except.ok (some w)) :
    key ∈ (r.declared_variables.filter fun kv =>
      !(variable_resolvable r.providers kv.1 kv.2)).map Prod.fst := by
  apply List.mem_map.mpr
  refine ⟨(key, var), List.mem_filter.mpr ⟨hmem, ?_⟩, rfl⟩
  simp [variable_resolvable, hnodef,
    no_dynamic_of_all_static r.providers hstatic,
    static_answers_false_of_no_answer r.providers key hnoanswer]

/-- C7: a declared variable with no default, no Static provider answer, and no
Dynamic provider registered makes validation fail, and the reported missing-key
list contains every such variable, not just the first. -/
theorem C7_validation_aggregates_missing (r : ProviderResolver)
    (key : String) (var : Variable)
    (hmem : (key, var) ∈ r.declared_variables)
    (hnodef : var.default = none)
    (hstatic : ∀ p ∈ r.providers, p.kind = ProviderVariableKind.Static)
    (hnoanswer : ∀ p ∈ r.providers, ∀ w, p.get key ≠ Except.ok (some w)) :
    ∃ keys, r.validate_variable_existence = Except.error (ValidationError.missing keys)
      ∧ key ∈ keys
      ∧ ∀ k vr, (k, vr) ∈ r.declared_variables → vr.default = none →
          (∀ p ∈ r.providers, ∀ w, p.get k ≠ Except.ok (some w)) → k ∈ keys := by
  have hk := unresolvable_mem_missing r key var hmem hnodef hstatic hnoanswer
  unfold ProviderResolver.validate_variable_existence
  cases hfil : (r.declared_variables.filter fun kv =>
      !(variable_resolvable r.providers kv.1 kv.2)).map Prod.fst with
  | nil =>
    rw [hfil] at hk
    cases hk
  | cons k0 ks =>
    refine ⟨k0 :: ks, rfl, ?_, ?_⟩
    · rw [hfil] at hk
      exact hk
    · intro k vr hkmem hknodef hknoanswer
      have := unresolvable_mem_missing r k vr hkmem hknodef hstatic hknoanswer
      rw [hfil] at this
      exact this

/-- Resolver of the neither-provider-has-data test: declared key hello with no
default, providers StaticMockProvider then ExtraStaticMockProvider. -/
def two_static_missing_resolver : ProviderResolver :=
  { declared_variables := [("hello", { description := none, default := none, secret := false })],
    providers := [StaticMockProvider, ExtraStaticMockProvider] }

/-- C7 witness: validation of the neither-provider-has-data resolver fails and
reports hello. -/
theorem C7_validation_aggregates_missing_witness :
    ∃ keys,
      two_static_missing_resolver.validate_variable_existence
          = Except.error (ValidationError.missing keys)
        ∧ "hello" ∈ keys
        ∧ ∀ k vr, (k, vr) ∈ two_static_missing_resolver.declared_variables →
            vr.default = none →
            (∀ p ∈ two_static_missing_resolver.providers, ∀ w,
              p.get k ≠ Except.ok (some w)) → k ∈ keys :=
  C7_validation_aggregates_missing two_static_missing_resolver "hello"
    { description := none, default := none, secret := false }
    (List.mem_singleton.mpr rfl) rfl
    (by
      intro p hp
      rcases List.mem_cons.mp hp with h | h
      · subst h
        rfl
      · rw [List.mem_singleton] at h
        subst h
        rfl)
    (by
      intro p hp w
      rcases List.mem_cons.mp hp with h | h
      · subst h
        simp [StaticMockProvider]
      · rw [List.mem_singleton] at h
        subst h
        simp [ExtraStaticMockProvider])

/-- Whitespace as tolerated around a placeholder key. -/
def is_space (c : Char) : Bool :=
  c = ' ' || c = '\t' || c = '\n' || c = '\r'

/-- Strip leading and trailing whitespace from a character list. -/
def trim_chars (cs : List Char) : List Char :=
  ((cs.dropWhile is_space).reverse.dropWhile is_space).reverse

/-- Modelled from the spec: scan for the closing brace pair of a placeholder,
returning the raw key characters and the remainder after the closing pair, or
none when the placeholder is unclosed. -/
def placeholder_close : List Char → Option (List Char × List Char)
  | [] => none
  | '\x7d' :: '\x7d' :: rest => some ([], rest)
  | c :: rest =>
    match placeholder_close rest with
    | none => none
    | some (k, r) => some (c :: k, r)

/-- Modelled from the spec: the substitution pass of `resolve_template` — scan
left to right, replace each double-brace placeholder by the resolved value of
its trimmed key, keep every other character unchanged. Fuel bounds recursion;
one unit per consumed character suffices. -/
def template_subst (res : String → Except ResolveError String) :
    Nat → List Char → Except ResolveError (List Char)
  | 0, _ => Except.error (ResolveError.invalid_template "fuel exhausted")
  | _ + 1, [] => Except.ok []
  | fuel + 1, '\x7b' :: '\x7b' :: rest =>
    match placeholder_close rest with
    | none => Except.error (ResolveError.invalid_template "unclosed placeholder")
    | some (kcs, rest2) =>
      match res (String.mk (trim_chars kcs)) with
      | Except.error e => Except.error e
      | Except.ok v =>
        match template_subst res fuel rest2 with
        | Except.error e => Except.error e
        | Except.ok tail => Except.ok (v.data ++ tail)
  | fuel + 1, c :: rest =>
    match template_subst res fuel rest with
    | Except.error e => Except.error e
    | Except.ok tail => Except.ok (c :: tail)

/-- Modelled from the spec: `ProviderResolver::resolve_template` — resolve all
placeholders in the template via `resolve`, left to right, substituting in
place. -/
def ProviderResolver.resolve_template (r : ProviderResolver) (t : String) :
    Except ResolveError String :=
  match template_subst r.resolve (t.data.length + 1) t.data with
  | Except.error e => Except.error e
  | Except.ok cs => Except.ok (String.mk cs)

/-- Resolver of the factor-variables provider test: declared key foo with no
default, backed by the mock provider answering foo with bar. -/
def roundtrip_resolver : ProviderResolver :=
  { declared_variables := [("foo", { description := none, default := none, secret := false })],
    providers := [StaticMockProvider] }

/-- C8: resolving the template consisting of a lower-than sign, a double-brace
placeholder for foo, and a greater-than sign against a resolver mapping foo to
bar yields the string of lower-than, bar, greater-than: the placeholder is
replaced in place (with or without whitespace around the key) and surrounding
text is preserved. -/
theorem C8_template_roundtrip :
    roundtrip_resolver.resolve_template "<\x7b\x7b foo \x7d\x7d>" = Except.ok "<bar>"
      ∧ roundtrip_resolver.resolve_template "<\x7b\x7bfoo\x7d\x7d>" = Except.ok "<bar>" := by
  constructor <;> rfl

/-!
Part 3 covers the outbound access-control configuration
(spin-outbound-networking-config, not under the sources here): the parsed
allow-list rules and the destination match, modelled from the spec
(sections 3 and 4.2), and the per-instance shared single-computation future
inside `OutboundAllowedHosts`, modelled from the spec (sections 4.4 and 5)
with cooperative scheduling reducing concurrent awaits to an arbitrary
sequence of await steps on one shared cell.
-/

/-- Modelled from the spec: a scheme pattern of an allow-list rule — a
wildcard or an exact scheme. -/
inductive SchemePattern
  | any
  | exact (s : String)
deriving DecidableEq, Repr

/-- Modelled from the spec: a host pattern — a wildcard, an exact host, or a
single leading wildcard segment matching any subdomain of a suffix. -/
inductive HostPattern
  | any
  | exact (h : String)
  | subdomain_of (suffix : String)
deriving DecidableEq, Repr

/-- Modelled from the spec: a port pattern — omitted (any), a literal port, or
an inclusive range. -/
inductive PortPattern
  | any
  | exact (p : Nat)
  | range (lo hi : Nat)
deriving DecidableEq, Repr

/-- Modelled from the spec: one parsed allow-list rule of scheme, host and
port patterns. -/
structure AllowedHostConfig where
  scheme : SchemePattern
  host : HostPattern
  port : PortPattern
deriving DecidableEq, Repr

/-- Modelled from the spec: `AllowedHostsConfig` — the ordered list of parsed
rules. -/
structure AllowedHostsConfig where
  rules : List AllowedHostConfig
deriving DecidableEq, Repr

/-- Lower-case a string for case-insensitive host comparison. -/
def lower (s : String) : String :=
  String.map Char.toLower s

/-- Modelled from the spec: scheme match is exact (or wildcard). -/
def scheme_matches : SchemePattern → String → Bool
  | SchemePattern.any, _ => true
  | SchemePattern.exact s, scheme => s = scheme

/-- Modelled from the spec: host comparison is case-insensitive; a leading
wildcard segment matches any subdomain of the suffix. -/
def host_matches : HostPattern → String → Bool
  | HostPattern.any, _ => true
  | HostPattern.exact h, host => lower h = lower host
  | HostPattern.subdomain_of suffix, host =>
    String.endsWith (lower host) (lower suffix)

/-- Modelled from the spec: port within the declared range or unspecified. -/
def port_matches : PortPattern → Nat → Bool
  | PortPattern.any, _ => true
  | PortPattern.exact p, port => p = port
  | PortPattern.range lo hi, port => lo ≤ port && port ≤ hi

/-- Modelled from the spec: a rule matches when all three fields match. -/
def rule_matches (r : AllowedHostConfig) (host : String) (port : Nat)
    (scheme : String) : Bool :=
  scheme_matches r.scheme scheme && host_matches r.host host
    && port_matches r.port port

/-- Modelled from the spec: `AllowedHostsConfig::is_allowed` — true iff some
rule matches all three fields. -/
def AllowedHostsConfig.is_allowed (cfg : AllowedHostsConfig) (host : String)
    (port : Nat) (scheme : String) : Bool :=
  cfg.rules.any fun r => rule_matches r host port scheme

/-- C9: an `AllowedHostsConfig` with zero rules denies every host, port and
scheme: the empty allow-list is closed by default. -/
theorem C9_empty_allow_list_denies_all (host : String) (port : Nat)
    (scheme : String) :
    AllowedHostsConfig.is_allowed { rules := [] } host port scheme = false :=
  rfl

/-- Modelled from the spec: the shared single-computation cell wrapped by
`OutboundAllowedHosts` — either not yet computed, or holding the cached
terminal outcome; the counter records how many times the underlying
parse/resolve computation has run. -/
structure SharedFutureCell (α : Type) where
  cached : Option α
  compute_count : Nat
deriving Repr

/-- The cell before any connection attempt has awaited it. -/
def SharedFutureCell.unstarted (α : Type) : SharedFutureCell α :=
  { cached := none, compute_count := 0 }

/-- Modelled from the spec: one clone of the handle awaiting the shared
future — the first await runs the computation once and caches its outcome
(success or failure alike); every later await returns the cached outcome
without recomputation. -/
def await_shared {α : Type} (compute : α) (s : SharedFutureCell α) :
    α × SharedFutureCell α :=
  match s.cached with
  | some r => (r, s)
  | none => (compute, { cached := some compute, compute_count := s.compute_count + 1 })

/-- A sequence of n awaits against the shared cell, collecting the outcome
each awaiting clone observes. -/
def run_awaits {α : Type} (compute : α) (s : SharedFutureCell α) :
    Nat → List α × SharedFutureCell α
  | 0 => ([], s)
  | n + 1 =>
    let step := await_shared compute s
    let rest := run_awaits compute step.2 n
    (step.1 :: rest.1, rest.2)

theorem run_awaits_cached {α : Type} (compute r : α) (s : SharedFutureCell α)
    (h : s.cached = some r) (n : Nat) :
    run_awaits compute s n = (List.replicate n r, s) := by
  induction n with
  | zero => rfl
  | succ m ih =>
    simp [run_awaits, await_shared, h, ih, List.replicate]

/-- C2: starting from the unstarted cell, any number n of (concurrent or
subsequent) awaits runs the computation at most once — exactly once as soon as
one await happens — and every awaiting clone observes the one computed
outcome, whether it is a success or a failure. Instantiating the outcome type
at a Result type shows a failing parse is cached and returned to every later
caller without re-running resolution. -/
theorem C2_shared_future_computed_once {α : Type} (compute : α) (n : Nat)
    (hn : 0 < n) :
    (run_awaits compute (SharedFutureCell.unstarted α) n).2.compute_count = 1
      ∧ ∀ r ∈ (run_awaits compute (SharedFutureCell.unstarted α) n).1,
          r = compute := by
  cases n with
  | zero => cases hn
  | succ m =>
    have hstep :
        await_shared compute (SharedFutureCell.unstarted α)
          = (compute, { cached := some compute, compute_count := 1 }) := rfl
    constructor
    · show (run_awaits compute (SharedFutureCell.unstarted α) (m + 1)).2.compute_count = 1
      simp [run_awaits, hstep,
        run_awaits_cached compute compute
          { cached := some compute, compute_count := 1 } rfl m]
    · intro r hr
      simp [run_awaits, hstep,
        run_awaits_cached compute compute
          { cached := some compute, compute_count := 1 } rfl m] at hr
      rcases hr with h | h
      · exact h
      · exact h.2

/-- C2 witness: three awaits of a failing parse outcome run the computation
once and every caller observes the same cached failure. -/
theorem C2_shared_future_computed_once_witness :
    (run_awaits (Except.error "parse failed" : Except String AllowedHostsConfig)
        (SharedFutureCell.unstarted (Except String AllowedHostsConfig)) 3).2.compute_count = 1
      ∧ ∀ r ∈ (run_awaits (Except.error "parse failed" : Except String AllowedHostsConfig)
          (SharedFutureCell.unstarted (Except String AllowedHostsConfig)) 3).1,
          r = Except.error "parse failed" :=
  C2_shared_future_computed_once
    (Except.error "parse failed" : Except String AllowedHostsConfig) 3
    (by decide)

/-!
Part 4 embeds the chat-completion response conversion of
crates/llm-remote-http/src/lib.rs. The vector indexing `choices[0]`, which
panics in Rust when the vector is empty, is modelled by `List.head?`: the
conversion yields none exactly on the panicking inputs.
-/

/-- A chat completion message (crates/llm-remote-http/src/schema.rs); only the
content field participates in the conversion. -/
structure ChatCompletionResponseMessage where
  content : String
deriving DecidableEq, Repr

/-- One chat completion choice (crates/llm-remote-http/src/schema.rs). -/
structure ChatCompletionChoice where
  message : ChatCompletionResponseMessage
deriving DecidableEq, Repr

/-- Usage statistics of a completion (crates/llm-remote-http/src/lib.rs). -/
structure CompletionUsage where
  completion_tokens : Nat
  prompt_tokens : Nat
deriving DecidableEq, Repr

/-- The response body (crates/llm-remote-http/src/lib.rs); only the fields the
conversion reads are retained. -/
structure CreateChatCompletionResponse where
  choices : List ChatCompletionChoice
  usage : CompletionUsage
deriving DecidableEq, Repr

/-- wasi-llm inferencing usage. -/
structure InferencingUsage where
  prompt_token_count : Nat
  generated_token_count : Nat
deriving DecidableEq, Repr

/-- wasi-llm inferencing result. -/
structure InferencingResult where
  text : String
  usage : InferencingUsage
deriving DecidableEq, Repr

/-- Embedding of `From<CreateChatCompletionResponse> for InferencingResult`:
text is `choices[0].message.content`, prompt tokens come from
`usage.prompt_tokens`, generated tokens from `usage.completion_tokens`. The
out-of-bounds panic of `choices[0]` on an empty vector is the none case. -/
def inferencing_result_from (value : CreateChatCompletionResponse) :
    Option InferencingResult :=
  match value.choices.head? with
  | none => none
  | some c =>
    some
      { text := c.message.content,
        usage :=
          { prompt_token_count := value.usage.prompt_tokens,
            generated_token_count := value.usage.completion_tokens } }

/-- C10: the conversion is partial — it fails (the Rust code panics) exactly
when the choices vector is empty, and on any non-empty choices vector it
succeeds with the first choice's message content and the usage counts. -/
theorem C10_conversion_partial_on_choices (value : CreateChatCompletionResponse) :
    (inferencing_result_from value = none ↔ value.choices = [])
      ∧ ∀ c cs, value.choices = c :: cs →
          inferencing_result_from value
            = some
                { text := c.message.content,
                  usage :=
                    { prompt_token_count := value.usage.prompt_tokens,
                      generated_token_count := value.usage.completion_tokens } } := by
  constructor
  · cases h : value.choices <;> simp [inferencing_result_from, h]
  · intro c cs h
    simp [inferencing_result_from, h]
